import Mathlib

/-
Verification development for the whatsapp-cloud-api-types client library.

The repository is a TypeScript client for the WhatsApp Business Cloud API:
zod schemas for request, response and webhook payloads, plus a thin
transport layer (BaseService in src/client/config.ts) that builds URLs,
injects bearer authentication, issues one HTTP call and classifies the
result.  The definitions below are a shallow embedding of that code:
JSON values are an inductive type, zod object schemas become boolean
checkers over it, and the pre-network and post-network phase of each
modelled operation becomes a pure function.  JSON numbers are modelled
as integers; every number occurring in the modelled schemas is integral
(error codes, template ids, timestamps).
-/

/-- A JSON value. Objects are association lists in document order. -/
inductive Json where
  | null : Json
  | bool : Bool → Json
  | num : Int → Json
  | str : String → Json
  | arr : List Json → Json
  | obj : List (String × Json) → Json

/-- Field lookup on a JSON object (first binding wins, as in parsed JSON
where keys are unique). Non-objects have no fields. -/
def Json.getField : Json → String → Option Json
  | Json.obj fields, k => (fields.find? (fun p => p.1 == k)).map Prod.snd
  | _, _ => none

/-- The client configuration record (WhatsAppConfigSchema output type in
src/client/config.ts): access token, phone number id, optional WABA id,
API version and base URL, the latter two already defaulted. -/
structure WhatsAppConfig where
  accessToken : String
  phoneNumberId : String
  wabaId : Option String
  version : String
  baseUrl : String

/-- A structural character-level prefix test (evaluates in the kernel). -/
def strHasPrefix (s pre : String) : Bool :=
  pre.data.isPrefixOf s.data

/-- Abstraction of the zod string url refinement (a WHATWG URL parse
check): the string carries an http or https scheme with a nonempty
remainder. Every concrete URL in this development is classified the same
way by the real check and by this model. -/
def isValidUrlModel (s : String) : Bool :=
  (strHasPrefix s "http://" && decide (s.length > 7)) ||
    (strHasPrefix s "https://" && decide (s.length > 8))

/-- Validity of a configuration record per WhatsAppConfigSchema:
nonempty access token, nonempty phone number id, well-formed base URL.
(wabaId is optional and version is an unconstrained string.) -/
def configValid (c : WhatsAppConfig) : Bool :=
  decide (c.accessToken.length ≥ 1) && decide (c.phoneNumberId.length ≥ 1) &&
    isValidUrlModel c.baseUrl

/-- BaseService.buildUrl (src/client/config.ts line 112): base URL,
version and path joined by single slashes. -/
def buildUrl (c : WhatsAppConfig) (path : String) : String :=
  c.baseUrl ++ "/" ++ c.version ++ "/" ++ path

/-- The base URL computed in the WABAService constructor
(src/client/services/waba.ts line 111): the origin is the fixed string
https://graph.facebook.com, not the configured base URL. -/
def wabaServiceBaseUrl (c : WhatsAppConfig) : String :=
  "https://graph.facebook.com/" ++ c.version

/-- The URL used by WABAService.get for a WABA id (no field selection):
the hardcoded service base URL followed by the id. -/
def wabaServiceUrl (c : WhatsAppConfig) (wabaId : String) : String :=
  wabaServiceBaseUrl c ++ "/" ++ wabaId

/-- The base URL computed in the WebhooksService constructor
(webhooks service file, constructor): likewise a fixed origin. -/
def webhooksServiceBaseUrl (c : WhatsAppConfig) : String :=
  "https://graph.facebook.com/" ++ c.version

/-- Header maps, modelling JavaScript plain objects of strings: insertion
order is kept and assignment to an existing key overwrites in place. -/
abbrev Headers := List (String × String)

/-- JavaScript object property assignment on a header map: overwrite the
existing binding for the key, or append a new one. -/
def hset : Headers → String → String → Headers
  | [], k, v => [(k, v)]
  | p :: t, k, v => if p.1 == k then (k, v) :: t else p :: hset t k v

/-- Property lookup on a header map. -/
def hget : Headers → String → Option String
  | [], _ => none
  | p :: t, k => if p.1 == k then some p.2 else hget t k

/-- The body of a fetch request: either a string (the output of
JSON.stringify) or a FormData multipart form. The form content is
irrelevant to the transport logic, which only branches on the kind. -/
inductive FetchBody where
  | str : String → FetchBody
  | form : FetchBody

/-- JavaScript truthiness of the optional body: undefined and the empty
string are falsy, any other string and any FormData object are truthy. -/
def bodyTruthy : Option FetchBody → Bool
  | none => false
  | some (FetchBody.str s) => !(s == "")
  | some FetchBody.form => true

/-- Whether the optional body is a FormData instance. -/
def isFormBody : Option FetchBody → Bool
  | some FetchBody.form => true
  | _ => false

/-- The options argument of BaseService.request: optional method,
optional caller headers, optional body. -/
structure FetchOptions where
  method : Option String := none
  headers : Headers := []
  body : Option FetchBody := none

/-- Method defaulting in BaseService.request: options.method or GET
(JavaScript or-defaulting, so the empty string also falls back). -/
def requestMethod (opts : FetchOptions) : String :=
  match opts.method with
  | some m => if m == "" then "GET" else m
  | none => "GET"

/-- The header map right after the object literal in BaseService.request
(src/client/config.ts lines 124-127): the Authorization bearer entry
first, then the caller headers spread over it. -/
def mergedHeaders (c : WhatsAppConfig) (opts : FetchOptions) : Headers :=
  opts.headers.foldl (fun acc p => hset acc p.1 p.2)
    [("Authorization", "Bearer " ++ c.accessToken)]

/-- The header map actually sent by BaseService.request (lines 124-132):
after the merge, Content-Type is forced to application/json exactly when
the body is truthy and not a FormData instance. -/
def requestHeaders (c : WhatsAppConfig) (opts : FetchOptions) : Headers :=
  if bodyTruthy opts.body && !(isFormBody opts.body) then
    hset (mergedHeaders c opts) "Content-Type" "application/json"
  else mergedHeaders c opts

/-- The error payload carried by WhatsAppApiError
(src/client/config.ts lines 86-97). -/
structure ApiErrorData where
  message : String
  type : String
  code : Int
  error_subcode : Option Int
  fbtrace_id : String
deriving Repr, DecidableEq

/-- ApiErrorSchema.safeParse (src/client/config.ts lines 62-70): the body
must be an object with an error object holding a string message, a string
type, a numeric code, a string fbtrace_id and an optional numeric
error_subcode. -/
def parseApiError (j : Json) : Option ApiErrorData :=
  match j.getField "error" with
  | some e =>
    match e.getField "message", e.getField "type", e.getField "code",
        e.getField "fbtrace_id" with
    | some (Json.str m), some (Json.str t), some (Json.num cd), some (Json.str f) =>
      match e.getField "error_subcode" with
      | none => some ⟨m, t, cd, none, f⟩
      | some (Json.num sc) => some ⟨m, t, cd, some sc, f⟩
      | some _ => none
    | _, _, _, _ => none
  | none => none

/-- An HTTP response as seen after response.json(): status plus parsed
JSON body (a non-JSON body throws earlier and is outside this model). -/
structure HttpResponse where
  status : Nat
  body : Json

/-- response.ok: status in the 200-299 success range. -/
def responseOk (status : Nat) : Bool :=
  decide (200 ≤ status) && decide (status ≤ 299)

/-- Failures a client operation can surface. -/
inductive ClientError where
  | validation : ClientError
  | precondition : String → ClientError
  | apiError : ApiErrorData → ClientError
  | httpError : Nat → Json → ClientError
  | message : String → ClientError

/-- The outcome classification of BaseService.request
(src/client/config.ts lines 142-159): success range returns the body
as-is; otherwise the body is tried against the API error envelope and a
typed WhatsAppApiError or a generic status-and-body error is thrown. -/
def classifyResponse (r : HttpResponse) : Except ClientError Json :=
  if responseOk r.status then Except.ok r.body
  else
    match parseApiError r.body with
    | some e => Except.error (ClientError.apiError e)
    | none => Except.error (ClientError.httpError r.status r.body)

/-- A request as handed to fetch by a service operation, before any
network activity: resolved URL, method and (pre-stringify) JSON body. -/
structure HttpRequest where
  url : String
  method : String
  body : Option Json := none

/-- Whether the pre-network phase of an operation reaches the fetch call
(ok carries the request that is sent) or throws locally first. -/
def sendsRequest (o : Except ClientError HttpRequest) : Bool :=
  match o with
  | Except.ok _ => true
  | Except.error _ => false

/-- The URL of the request an operation would send, if it sends one. -/
def outboundUrl (o : Except ClientError HttpRequest) : Option String :=
  match o with
  | Except.ok r => some r.url
  | Except.error _ => none

/-- Checker for an optional field of a zod object: absent is fine,
present must satisfy the field schema (null never does). -/
def optionalField (j : Json) (k : String) (p : Json → Bool) : Bool :=
  match j.getField k with
  | some v => p v
  | none => true

/-- Checker for a required field of a zod object. -/
def requiredField (j : Json) (k : String) (p : Json → Bool) : Bool :=
  match j.getField k with
  | some v => p v
  | none => false

/-- Whether a JSON value is a string. -/
def isStrJson : Json → Bool
  | Json.str _ => true
  | _ => false

/-- Whether a JSON value is a number (all modelled numbers are ints). -/
def isIntJson : Json → Bool
  | Json.num _ => true
  | _ => false

/-- Checker on an optional input component. -/
def optionHolds (p : α → Bool) : Option α → Bool
  | none => true
  | some a => p a

/-- TwoStepVerificationPinSchema
(src/client/services/two-step-verification.ts lines 7-9): the pin is a
string of length exactly 6. -/
def twoStepPinValid (pin : String) : Bool :=
  pin.length == 6

/-- Pre-network phase of TwoStepVerificationService.setPin (lines 54-63):
parse the pin against the pin schema (throwing a validation error on
failure), then POST the payload to the phone number id path. -/
def setPinOutbound (c : WhatsAppConfig) (pin : String) :
    Except ClientError HttpRequest :=
  if twoStepPinValid pin then
    Except.ok { url := buildUrl c c.phoneNumberId, method := "POST",
                body := some (Json.obj [("pin", Json.str pin)]) }
  else Except.error ClientError.validation

/-- Pre-network phase of TwoStepVerificationService.removePin
(lines 79-88): the payload with an empty pin is built and POSTed with no
schema parse. -/
def removePinOutbound (c : WhatsAppConfig) : Except ClientError HttpRequest :=
  Except.ok { url := buildUrl c c.phoneNumberId, method := "POST",
              body := some (Json.obj [("pin", Json.str "")]) }

/-- The caller input of BusinessService.updateProfile: a partial business
profile (absent components correspond to absent keys at runtime). -/
structure BusinessProfileInput where
  about : Option String := none
  address : Option String := none
  description : Option String := none
  email : Option String := none
  profile_picture_url : Option String := none
  websites : Option (List String) := none
  vertical : Option String := none

/-- Abstraction of the zod string email refinement; only the presence of
an at sign is modelled. No theorem below depends on its precision. -/
def isEmailModel (s : String) : Bool :=
  s.contains '@'

/-- The declared request schema BusinessProfileSchema of the business
service (business service file lines 7-36), applied to an update input
(messaging_product is supplied by the operation itself): about and
address capped at 256, description at 512, email well formed, picture
and website entries
well-formed URLs, at most two websites, vertical in its closed set. -/
def businessProfileInputValid (p : BusinessProfileInput) : Bool :=
  optionHolds (fun s => decide (s.length ≤ 256)) p.about &&
  optionHolds (fun s => decide (s.length ≤ 256)) p.address &&
  optionHolds (fun s => decide (s.length ≤ 512)) p.description &&
  optionHolds isEmailModel p.email &&
  optionHolds isValidUrlModel p.profile_picture_url &&
  optionHolds (fun l => decide (l.length ≤ 2) && l.all isValidUrlModel) p.websites &&
  optionHolds (fun v => ["AUTOMOTIVE", "BEAUTY", "APPAREL", "EDU", "ENTERTAIN",
    "EVENT_PLAN", "FINANCE", "GROCERY", "GOVT", "HOTEL", "HEALTH", "NONPROFIT",
    "PROF_SERVICES", "RETAIL", "TRAVEL", "RESTAURANT", "NOT_A_BIZ"].contains v)
    p.vertical

/-- JSON encoding of the update-profile payload: messaging_product
whatsapp followed by the present profile keys. -/
def profileJson (p : BusinessProfileInput) : Json :=
  Json.obj ([("messaging_product", Json.str "whatsapp")] ++
    (match p.about with | some s => [("about", Json.str s)] | none => []) ++
    (match p.address with | some s => [("address", Json.str s)] | none => []) ++
    (match p.description with | some s => [("description", Json.str s)] | none => []) ++
    (match p.email with | some s => [("email", Json.str s)] | none => []) ++
    (match p.profile_picture_url with
      | some s => [("profile_picture_url", Json.str s)] | none => []) ++
    (match p.websites with
      | some l => [("websites", Json.arr (l.map Json.str))] | none => []) ++
    (match p.vertical with | some s => [("vertical", Json.str s)] | none => []))

/-- Pre-network phase of BusinessService.updateProfile (business service
file lines 130-144): the payload is spread together and POSTed directly;
no schema parse happens on the way out. -/
def updateProfileOutbound (c : WhatsAppConfig) (p : BusinessProfileInput) :
    Except ClientError HttpRequest :=
  Except.ok { url := buildUrl c (c.phoneNumberId ++ "/whatsapp_business_profile"),
              method := "POST", body := some (profileJson p) }

/-- JavaScript truthiness of the optional wabaId string. -/
def jsStrTruthy : Option String → Bool
  | none => false
  | some s => !(s == "")

/-- JavaScript template-literal interpolation of a possibly undefined
string: undefined renders as the text undefined. -/
def jsInterpOptString : Option String → String
  | some s => s
  | none => "undefined"

/-- Pre-network phase of BusinessService.getCommerceSettings (business
service file lines 153-163): a falsy wabaId throws a local error before
any request; otherwise a GET on the commerce settings path. -/
def getCommerceSettingsOutbound (c : WhatsAppConfig) :
    Except ClientError HttpRequest :=
  if jsStrTruthy c.wabaId then
    Except.ok { url := buildUrl c (jsInterpOptString c.wabaId ++
                  "/whatsapp_commerce_settings?fields=is_catalog_visible,is_cart_enabled"),
                method := "GET" }
  else Except.error (ClientError.precondition
    "wabaId is required to get commerce settings")

/-- A button in a template-creation request (templates service file,
CreateTemplateSchema buttons array). -/
structure TemplateButtonInput where
  type : String
  text : String
  url : Option String := none
  phone_number : Option String := none
  exampleField : Option (List String) := none

/-- The example object of a template component. -/
structure TemplateExampleInput where
  header_text : Option (List String) := none
  header_handle : Option (List String) := none
  body_text : Option (List (List String)) := none

/-- A carousel card: its components are unconstrained JSON (z.any). -/
structure TemplateCardInput where
  components : List Json

/-- A component of a template-creation request. -/
structure TemplateComponentInput where
  type : String
  format : Option String := none
  text : Option String := none
  buttons : Option (List TemplateButtonInput) := none
  exampleField : Option TemplateExampleInput := none
  cards : Option (List TemplateCardInput) := none

/-- A template-creation request (CreateTemplateSchema input). -/
structure CreateTemplateInput where
  name : String
  language : String
  category : String
  components : List TemplateComponentInput
  allow_category_change : Option Bool := none

/-- Button validity under CreateTemplateSchema: the type must be in its
closed enum; the other button fields are unconstrained strings. -/
def templateButtonValid (b : TemplateButtonInput) : Bool :=
  ["PHONE_NUMBER", "URL", "QUICK_REPLY", "COPY_CODE"].contains b.type

/-- Component validity under CreateTemplateSchema: component type and
optional format in their closed enums, buttons all valid. -/
def templateComponentValid (comp : TemplateComponentInput) : Bool :=
  ["HEADER", "BODY", "FOOTER", "BUTTONS", "CAROUSEL"].contains comp.type &&
  optionHolds (fun f =>
    ["TEXT", "IMAGE", "VIDEO", "DOCUMENT", "LOCATION"].contains f) comp.format &&
  optionHolds (fun bs => bs.all templateButtonValid) comp.buttons

/-- CreateTemplateSchema validity (templates service file lines 418-457):
category in its closed enum and every component valid; name and language
are unconstrained strings. -/
def createTemplateValid (t : CreateTemplateInput) : Bool :=
  ["AUTHENTICATION", "MARKETING", "UTILITY"].contains t.category &&
  t.components.all templateComponentValid

/-- Helper: an optional JSON object entry. -/
def optField (k : String) (v : Option Json) : List (String × Json) :=
  match v with
  | some j => [(k, j)]
  | none => []

/-- Helper: a JSON array of strings. -/
def strListJson (l : List String) : Json :=
  Json.arr (l.map Json.str)

/-- JSON encoding of a template button. -/
def templateButtonJson (b : TemplateButtonInput) : Json :=
  Json.obj ([("type", Json.str b.type), ("text", Json.str b.text)] ++
    optField "url" (b.url.map Json.str) ++
    optField "phone_number" (b.phone_number.map Json.str) ++
    optField "example" (b.exampleField.map strListJson))

/-- JSON encoding of a component example object. -/
def templateExampleJson (e : TemplateExampleInput) : Json :=
  Json.obj (optField "header_text" (e.header_text.map strListJson) ++
    optField "header_handle" (e.header_handle.map strListJson) ++
    optField "body_text" (e.body_text.map (fun ll => Json.arr (ll.map strListJson))))

/-- JSON encoding of a carousel card. -/
def templateCardJson (cd : TemplateCardInput) : Json :=
  Json.obj [("components", Json.arr cd.components)]

/-- JSON encoding of a template component. -/
def templateComponentJson (comp : TemplateComponentInput) : Json :=
  Json.obj ([("type", Json.str comp.type)] ++
    optField "format" (comp.format.map Json.str) ++
    optField "text" (comp.text.map Json.str) ++
    optField "buttons" (comp.buttons.map (fun bs => Json.arr (bs.map templateButtonJson))) ++
    optField "example" (comp.exampleField.map templateExampleJson) ++
    optField "cards" (comp.cards.map (fun cs => Json.arr (cs.map templateCardJson))))

/-- JSON encoding of a validated template-creation payload. -/
def createTemplateJson (t : CreateTemplateInput) : Json :=
  Json.obj ([("name", Json.str t.name), ("language", Json.str t.language),
    ("category", Json.str t.category),
    ("components", Json.arr (t.components.map templateComponentJson))] ++
    optField "allow_category_change" (t.allow_category_change.map Json.bool))

/-- Pre-network phase of TemplatesService.create (templates service file
lines 570-584): the template is parsed against CreateTemplateSchema, and
the request path interpolates config.wabaId with no presence check —
an absent wabaId renders as the literal text undefined in the URL and
the call is still issued. -/
def templatesCreateOutbound (c : WhatsAppConfig) (t : CreateTemplateInput) :
    Except ClientError HttpRequest :=
  if createTemplateValid t then
    Except.ok { url := buildUrl c (jsInterpOptString c.wabaId ++ "/message_templates"),
                method := "POST", body := some (createTemplateJson t) }
  else Except.error ClientError.validation

/-- Parse of a response body against a success-flag schema such as
TwoStepVerificationResponseSchema or the subscription SubscriptionSchema:
the body must be an object with a boolean success field. -/
def parseSuccessField (j : Json) : Option Bool :=
  match j.getField "success" with
  | some (Json.bool b) => some b
  | _ => none

/-- Response phase of TwoStepVerificationService.setPin: classify the
transport outcome, then parse the body against the response schema
(which strips it down to the success field), raising a validation error
on a malformed success body. -/
def setPinHandleResponse (r : HttpResponse) : Except ClientError Json :=
  match classifyResponse r with
  | Except.error e => Except.error e
  | Except.ok j =>
    match parseSuccessField j with
    | some b => Except.ok (Json.obj [("success", Json.bool b)])
    | none => Except.error ClientError.validation

/-- Response phase of QRCodesService.update (QR codes service file lines
183-198): the transport outcome is returned as-is — the declared
success-flag response shape is never checked. -/
def qrUpdateHandleResponse (r : HttpResponse) : Except ClientError Json :=
  classifyResponse r

/-- Response phase of RegistrationService.updateSettings (registration
service file lines 322-339): likewise returned without any response
schema parse. -/
def regUpdateSettingsHandleResponse (r : HttpResponse) : Except ClientError Json :=
  classifyResponse r

/-- Options to WebhooksService.subscribe (SubscribeOptionsSchema in the
webhooks service file lines 33-36): optional callback override URL and
optional verify token. -/
structure SubscribeOptions where
  override_callback_uri : Option String := none
  verify_token : Option String := none

/-- SubscribeOptionsSchema validity: a present override callback URI
must be a well-formed URL; the verify token is unconstrained. -/
def subscribeOptionsValid (o : SubscribeOptions) : Bool :=
  optionHolds isValidUrlModel o.override_callback_uri

/-- The entries of the subscribe request body (webhooks service file
lines 131-139): the two keys are added only when truthy. -/
def subscribeBodyEntries (o : SubscribeOptions) : List (String × String) :=
  (match o.override_callback_uri with
    | some u => if u == "" then [] else [("override_callback_uri", u)]
    | none => []) ++
  (match o.verify_token with
    | some tk => if tk == "" then [] else [("verify_token", tk)]
    | none => [])

/-- The body handed to fetch: JSON when at least one entry is present,
undefined otherwise (line 147). -/
def subscribeBodyJson (entries : List (String × String)) : Option Json :=
  if entries.isEmpty then none
  else some (Json.obj (entries.map (fun p => (p.1, Json.str p.2))))

/-- Pre-network phase of WebhooksService.subscribe (lines 121-148):
options, when given, are parsed against SubscribeOptionsSchema, then a
POST on the subscribed_apps path of the hardcoded service base URL. -/
def subscribeOutbound (c : WhatsAppConfig) (wabaId : String)
    (options : Option SubscribeOptions) : Except ClientError HttpRequest :=
  match options with
  | some o =>
    if subscribeOptionsValid o then
      Except.ok { url := webhooksServiceBaseUrl c ++ "/" ++ wabaId ++ "/subscribed_apps",
                  method := "POST", body := subscribeBodyJson (subscribeBodyEntries o) }
    else Except.error ClientError.validation
  | none =>
    Except.ok { url := webhooksServiceBaseUrl c ++ "/" ++ wabaId ++ "/subscribed_apps",
                method := "POST", body := none }

/-- JavaScript or-defaulting on an optional string (empty counts falsy). -/
def jsOrElse (s : Option String) (dflt : String) : String :=
  match s with
  | some v => if v == "" then dflt else v
  | none => dflt

/-- The optional message drawn from an error body by the webhooks
service failure path (error.error and then its message, via optional
chaining). A non-string message is treated as absent; no claim depends
on that corner. -/
def errorBodyMessage (j : Json) : Option String :=
  match j.getField "error" with
  | some e =>
    match e.getField "message" with
    | some (Json.str m) => some m
    | _ => none
  | none => none

/-- Response phase of WebhooksService.subscribe (lines 150-158): a
non-success status throws a formatted error built from the body message
or the response status text; a success body is parsed against
SubscriptionSchema, an object with a boolean success flag. -/
def subscribeHandleResponse (resp : HttpResponse) (statusTextOf : Nat → String) :
    Except ClientError Json :=
  if responseOk resp.status then
    match parseSuccessField resp.body with
    | some b => Except.ok (Json.obj [("success", Json.bool b)])
    | none => Except.error ClientError.validation
  else
    Except.error (ClientError.message ("Failed to subscribe to WABA: " ++
      jsOrElse (errorBodyMessage resp.body) (statusTextOf resp.status)))

/-- The whole observable behavior of WebhooksService.subscribe at one
simulated response: the pre-network phase followed, when a request went
out, by the response phase. -/
def subscribeTotal (c : WhatsAppConfig) (wabaId : String)
    (options : Option SubscribeOptions) (resp : HttpResponse)
    (statusTextOf : Nat → String) : Except ClientError Json :=
  match subscribeOutbound c wabaId options with
  | Except.error e => Except.error e
  | Except.ok _ => subscribeHandleResponse resp statusTextOf

/-- Pre-network phase of WebhooksService.updateCallbackUrl (lines
250-259): a delegation to subscribe with the callback URL and verify
token packed into an options object. -/
def updateCallbackUrlOutbound (c : WhatsAppConfig) (wabaId callbackUrl : String)
    (verifyToken : Option String) : Except ClientError HttpRequest :=
  subscribeOutbound c wabaId
    (some { override_callback_uri := some callbackUrl, verify_token := verifyToken })

/-- Whole observable behavior of WebhooksService.updateCallbackUrl. -/
def updateCallbackUrlTotal (c : WhatsAppConfig) (wabaId callbackUrl : String)
    (verifyToken : Option String) (resp : HttpResponse)
    (statusTextOf : Nat → String) : Except ClientError Json :=
  subscribeTotal c wabaId
    (some { override_callback_uri := some callbackUrl, verify_token := verifyToken })
    resp statusTextOf

/-- The parsed result of WebhooksService.getSubscriptions: a data array
(entry contents are irrelevant to the subscription check). -/
structure SubscriptionsList where
  data : List Json

/-- WebhooksService.isSubscribed (webhooks service file lines 275-282) as
a function of the getSubscriptions outcome: the data array must be
nonempty, and the surrounding try/catch turns any failure into false. -/
def isSubscribedOutcome (r : Except ClientError SubscriptionsList) : Bool :=
  match r with
  | Except.ok s => decide (s.data.length > 0)
  | Except.error _ => false

/-- The fields of a WABA record used by the convenience checks. -/
structure WABAInfo where
  business_verification_status : Option String := none
  account_review_status : Option String := none

/-- WABAService.isVerified (src/client/services/waba.ts lines 307-310) as
a function of the get outcome: there is no try/catch, so a failure of
the underlying get propagates unchanged. -/
def isVerifiedOutcome (r : Except ClientError WABAInfo) : Except ClientError Bool :=
  match r with
  | Except.ok w => Except.ok (w.business_verification_status == some "VERIFIED")
  | Except.error e => Except.error e

/-- WABAService.isApproved (lines 326-329): same shape, no try/catch. -/
def isApprovedOutcome (r : Except ClientError WABAInfo) : Except ClientError Bool :=
  match r with
  | Except.ok w => Except.ok (w.account_review_status == some "APPROVED")
  | Except.error e => Except.error e

/-- TemplateQualityScoreSchema (quality update webhook file lines 6-11):
one of the four quality scores. -/
def parseQualityScore (j : Json) : Bool :=
  match j with
  | Json.str s => ["GREEN", "RED", "YELLOW", "UNKNOWN"].contains s
  | _ => false

/-- TemplateQualityUpdateValueSchema (quality update webhook file lines
18-29): previous and new quality scores, integer template id, template
name and language. -/
def templateQualityUpdateValueOk (j : Json) : Bool :=
  requiredField j "previous_quality_score" parseQualityScore &&
  requiredField j "new_quality_score" parseQualityScore &&
  requiredField j "message_template_id" isIntJson &&
  requiredField j "message_template_name" isStrJson &&
  requiredField j "message_template_language" isStrJson

/-- TemplateQualityUpdateChangeSchema (quality update webhook file lines
38-41), embedded exactly as written: the value must satisfy the quality
update value schema and the field discriminator is the literal
message_template_status_update — even though the surrounding file, its
doc comments and its exported names all describe the
message_template_quality_update webhook. -/
def templateQualityUpdateChangeOk (j : Json) : Bool :=
  requiredField j "value" templateQualityUpdateValueOk &&
  requiredField j "field" (fun f =>
    match f with
    | Json.str s => s == "message_template_status_update"
    | _ => false)

/-- TemplateButtonSchema of the components-update webhook
(src/webhooks/templates/template-components-update.ts lines 29-38). -/
def templateButtonObjOk (j : Json) : Bool :=
  requiredField j "message_template_button_type" (fun v =>
    match v with
    | Json.str s => ["CATALOG", "COPY_CODE", "EXTENSION", "FLOW", "MPM",
        "ORDER_DETAILS", "OTP", "PHONE_NUMBER", "POSTBACK", "REMINDER",
        "SEND_LOCATION", "SPM", "QUICK_REPLY", "URL", "VOICE_CALL"].contains s
    | _ => false) &&
  requiredField j "message_template_button_text" isStrJson &&
  optionalField j "message_template_button_url" isStrJson &&
  optionalField j "message_template_button_phone_number" isStrJson

/-- TemplateComponentsUpdateValueSchema (same file lines 45-60). -/
def templateComponentsUpdateValueOk (j : Json) : Bool :=
  requiredField j "message_template_id" isIntJson &&
  requiredField j "message_template_name" isStrJson &&
  requiredField j "message_template_language" isStrJson &&
  requiredField j "message_template_element" isStrJson &&
  optionalField j "message_template_title" isStrJson &&
  optionalField j "message_template_footer" isStrJson &&
  optionalField j "message_template_buttons" (fun v =>
    match v with
    | Json.arr l => l.all templateButtonObjOk
    | _ => false)

/-- TemplateComponentsUpdateChangeSchema (same file lines 69-72): value
under the components-update value schema, field discriminator the
literal message_template_components_update. -/
def templateComponentsUpdateChangeOk (j : Json) : Bool :=
  requiredField j "value" templateComponentsUpdateValueOk &&
  requiredField j "field" (fun f =>
    match f with
    | Json.str s => s == "message_template_components_update"
    | _ => false)

/-- A well-formed configuration with the default base URL. -/
def cfgEx : WhatsAppConfig :=
  { accessToken := "token123", phoneNumberId := "555", wabaId := some "W1",
    version := "v21.0", baseUrl := "https://graph.facebook.com" }

/-- A well-formed configuration with a non-default base URL. -/
def cfgAlt : WhatsAppConfig :=
  { accessToken := "token123", phoneNumberId := "555", wabaId := some "W1",
    version := "v21.0", baseUrl := "https://example.com" }

/-- A well-formed configuration without a WABA id. -/
def cfgNoWaba : WhatsAppConfig :=
  { accessToken := "token123", phoneNumberId := "555", wabaId := none,
    version := "v21.0", baseUrl := "https://graph.facebook.com" }

/-- A 257-character string, one past the about cap of the business
profile schema. -/
def longAbout : String :=
  String.mk (List.replicate 257 'a')

/-- A profile update whose about text violates its declared schema. -/
def badProfile : BusinessProfileInput :=
  { about := some longAbout }

/-- A template-creation input with an invalid category. -/
def badTemplate : CreateTemplateInput :=
  { name := "t", language := "en_US", category := "BAD", components := [] }

/-- A minimal valid template-creation input. -/
def okTemplate : CreateTemplateInput :=
  { name := "welcome", language := "en_US", category := "UTILITY",
    components := [{ type := "BODY", text := some "Hello" }] }

/-- A success body that matches none of the success-flag schemas. -/
def malformedBody : Json :=
  Json.obj [("foo", Json.str "bar")]

/-- The error body of the simulated HTTP 400 response from the spec. -/
def ex400body : Json :=
  Json.obj [("error", Json.obj
    [("message", Json.str "Invalid parameter"),
     ("type", Json.str "OAuthException"),
     ("code", Json.num 100),
     ("fbtrace_id", Json.str "abc123")])]

/-- The typed error data that body carries. -/
def exApiErr : ApiErrorData :=
  { message := "Invalid parameter", type := "OAuthException", code := 100,
    error_subcode := none, fbtrace_id := "abc123" }

/-- A value satisfying the quality-update value schema. -/
def qualityValueEx : Json :=
  Json.obj [("previous_quality_score", Json.str "GREEN"),
    ("new_quality_score", Json.str "RED"),
    ("message_template_id", Json.num 12345),
    ("message_template_name", Json.str "welcome"),
    ("message_template_language", Json.str "en_US")]

/-- A quality-update change tagged with the discriminator the upstream
platform documents for this event kind. -/
def qualityChangeClaimed : Json :=
  Json.obj [("value", qualityValueEx),
    ("field", Json.str "message_template_quality_update")]

/-- The same change tagged with the literal actually written in the
schema. -/
def qualityChangeActual : Json :=
  Json.obj [("value", qualityValueEx),
    ("field", Json.str "message_template_status_update")]

/-- A value satisfying the components-update value schema. -/
def componentsValueEx : Json :=
  Json.obj [("message_template_id", Json.num 777),
    ("message_template_name", Json.str "promo"),
    ("message_template_language", Json.str "en_US"),
    ("message_template_element", Json.str "Hello there")]

/-- A components-update change with its declared discriminator. -/
def componentsChangeEx : Json :=
  Json.obj [("value", componentsValueEx),
    ("field", Json.str "message_template_components_update")]

/-- Transport options carrying a JSON string body and no headers. -/
def optsJsonEx : FetchOptions :=
  { method := some "POST", body := some (FetchBody.str "payload") }

/-- Transport options whose caller headers carry their own
Authorization entry. -/
def optsAuthEx : FetchOptions :=
  { method := some "POST", headers := [("Authorization", "tok2")] }

/-- Looking up the key just assigned gives the assigned value. -/
theorem hget_hset_self (h : Headers) (k v : String) :
    hget (hset h k v) k = some v := by
  induction h with
  | nil => simp [hset, hget]
  | cons p t ih =>
    by_cases hp : p.1 == k
    · simp [hset, hget, hp]
    · simp [hset, hget, hp, ih]

/-- Assigning one key leaves the others unchanged. -/
theorem hget_hset_ne (h : Headers) (k v k' : String) (hne : k' ≠ k) :
    hget (hset h k v) k' = hget h k' := by
  induction h with
  | nil =>
    simp only [hset, hget]
    rw [if_neg]
    simp only [beq_iff_eq]
    exact fun hh => hne hh.symm
  | cons p t ih =>
    by_cases hp : p.1 == k
    · have hpk : p.1 = k := by simpa [beq_iff_eq] using hp
      by_cases hp' : p.1 == k'
      · exact absurd (by simpa [beq_iff_eq] using hp' : p.1 = k') (hpk ▸ fun hh => hne hh.symm)
      · have hkk : ¬(k = k') := fun hh => hne hh.symm
        simp [hset, hget, hp, hp', hpk, hkk]
    · simp [hset, hget, hp, ih]

/-- Folding assignments whose keys all differ from k does not change the
binding of k. -/
theorem hget_foldl_of_notmem (l : Headers) (h : Headers) (k : String)
    (hl : ∀ p ∈ l, p.1 ≠ k) :
    hget (l.foldl (fun acc p => hset acc p.1 p.2) h) k = hget h k := by
  induction l generalizing h with
  | nil => rfl
  | cons q t ih =>
    rw [List.foldl_cons, ih _ (fun p hp => hl p (List.mem_cons_of_mem q hp))]
    exact hget_hset_ne h q.1 q.2 k (Ne.symm (hl q (List.mem_cons_self q t)))

/-- Claim C1 (amended): operations routed through BaseService resolve
every URL to baseUrl, version and path joined by single slashes with no
normalization, while WABAService (like the webhooks and phone-numbers
services) resolves against the fixed origin https://graph.facebook.com
and the configured version, ignoring the configured base URL. -/
theorem url_resolution_by_service (c : WhatsAppConfig) (path : String) :
    buildUrl c path = c.baseUrl ++ "/" ++ c.version ++ "/" ++ path ∧
    wabaServiceUrl c path = "https://graph.facebook.com/" ++ c.version ++ "/" ++ path ∧
    webhooksServiceBaseUrl c = "https://graph.facebook.com/" ++ c.version :=
  ⟨rfl, rfl, rfl⟩

/-- Claim C1 counterexample: under a valid configuration whose base URL
is https://example.com, the URL the WABA service uses is built on
https://graph.facebook.com and differs from baseUrl, version and path
joined by slashes, so not every operation resolves URLs as claimed. -/
theorem wabaService_ignores_configured_baseUrl :
    configValid cfgAlt = true ∧
    wabaServiceUrl cfgAlt "W1" = "https://graph.facebook.com/v21.0/W1" ∧
    wabaServiceUrl cfgAlt "W1" ≠ cfgAlt.baseUrl ++ "/" ++ cfgAlt.version ++ "/" ++ "W1" := by
  refine ⟨by decide, by decide, by decide⟩

/-- Claim C2: whenever the shared transport primitive sees a response
status outside the success range, it raises the typed API error carrying
exactly the code, message, type, subcode and trace id of the structured
error envelope when the body parses as one, and otherwise raises the
generic transport failure carrying the HTTP status and the raw body. -/
theorem request_error_classification (r : HttpResponse) (e : ApiErrorData)
    (hok : responseOk r.status = false) :
    (parseApiError r.body = some e →
      classifyResponse r = Except.error (ClientError.apiError e)) ∧
    (parseApiError r.body = none →
      classifyResponse r = Except.error (ClientError.httpError r.status r.body)) := by
  constructor <;> intro hp <;> simp [classifyResponse, hok, hp]

/-- Claim C2 witness: the simulated 400 response of the spec produces
the typed API error with code 100, type OAuthException and trace id
abc123. -/
theorem request_error_classification_witness :
    responseOk 400 = false ∧
    parseApiError ex400body = some exApiErr ∧
    classifyResponse (HttpResponse.mk 400 ex400body) =
      Except.error (ClientError.apiError exApiErr) := by
  refine ⟨by decide, by decide, ?_⟩
  exact (request_error_classification (HttpResponse.mk 400 ex400body) exApiErr
    (by decide)).1 (by decide)

/-- Claim C7: a pin whose length is not 6 is rejected by setPin with a
validation failure in the pre-network phase, so no HTTP call is made. -/
theorem setPin_rejects_wrong_length_before_network (c : WhatsAppConfig)
    (pin : String) (h : pin.length ≠ 6) :
    setPinOutbound c pin = Except.error ClientError.validation := by
  have hv : twoStepPinValid pin = false := by
    simp [twoStepPinValid]
    exact h
  simp [setPinOutbound, hv]

/-- Claim C7 witness: the 7-character pin 1234567 is rejected before any
network call. -/
theorem setPin_rejects_wrong_length_before_network_witness :
    ("1234567" : String).length ≠ 6 ∧
    setPinOutbound cfgEx "1234567" = Except.error ClientError.validation :=
  ⟨by decide, setPin_rejects_wrong_length_before_network cfgEx "1234567" (by decide)⟩

/-- Claim C3 (amended): operations that parse their payload against the
declared request schema — such as setPin and templates.create — throw a
validation failure before any network I/O on invalid input, but removePin
and updateProfile serialize and send their payloads with no request
schema validation at all. -/
theorem outbound_validation_by_operation (c : WhatsAppConfig) (pin : String)
    (p : BusinessProfileInput) (t : CreateTemplateInput)
    (hpin : twoStepPinValid pin = false) (ht : createTemplateValid t = false) :
    setPinOutbound c pin = Except.error ClientError.validation ∧
    templatesCreateOutbound c t = Except.error ClientError.validation ∧
    sendsRequest (removePinOutbound c) = true ∧
    sendsRequest (updateProfileOutbound c p) = true := by
  refine ⟨?_, ?_, rfl, rfl⟩
  · simp [setPinOutbound, hpin]
  · simp [templatesCreateOutbound, ht]

/-- Claim C3 witness: concrete invalid inputs are rejected by the
validating operations, while the non-validating ones always proceed to
the network. -/
theorem outbound_validation_by_operation_witness :
    twoStepPinValid "1234567" = false ∧
    createTemplateValid badTemplate = false ∧
    setPinOutbound cfgEx "1234567" = Except.error ClientError.validation ∧
    templatesCreateOutbound cfgEx badTemplate = Except.error ClientError.validation ∧
    sendsRequest (removePinOutbound cfgEx) = true ∧
    sendsRequest (updateProfileOutbound cfgEx badProfile) = true := by
  have h := outbound_validation_by_operation cfgEx "1234567" badProfile badTemplate
    (by decide) (by decide)
  exact ⟨by decide, by decide, h.1, h.2.1, h.2.2.1, h.2.2.2⟩

set_option maxRecDepth 16384 in
/-- Claim C3 counterexample: a profile update whose about text is 257
characters long violates the declared business profile schema, and the
removePin payload (the empty pin) violates the declared pin schema, yet
both operations still reach the network with those payloads — no
validation failure is raised before I/O. -/
theorem updateProfile_sends_invalid_payload :
    businessProfileInputValid badProfile = false ∧
    sendsRequest (updateProfileOutbound cfgEx badProfile) = true ∧
    twoStepPinValid "" = false ∧
    sendsRequest (removePinOutbound cfgEx) = true := by
  refine ⟨by decide, rfl, by decide, rfl⟩

/-- Claim C4 (amended): operations that parse the response against the
declared response schema — such as setPin — raise a validation failure
on a success response whose body is malformed and never hand that body
back, but QRCodesService.update and RegistrationService.updateSettings
return the raw body to the caller without any response validation. -/
theorem response_validation_by_operation (r : HttpResponse)
    (hok : responseOk r.status = true) (hbad : parseSuccessField r.body = none) :
    setPinHandleResponse r = Except.error ClientError.validation ∧
    qrUpdateHandleResponse r = Except.ok r.body ∧
    regUpdateSettingsHandleResponse r = Except.ok r.body := by
  refine ⟨?_, ?_, ?_⟩ <;>
    simp [setPinHandleResponse, qrUpdateHandleResponse,
      regUpdateSettingsHandleResponse, classifyResponse, hok, hbad]

/-- Claim C4 witness: a 200 response whose body matches no success-flag
schema makes setPin raise a validation failure, while the QR update
operation returns the malformed body unchanged. -/
theorem response_validation_by_operation_witness :
    responseOk 200 = true ∧
    parseSuccessField malformedBody = none ∧
    setPinHandleResponse (HttpResponse.mk 200 malformedBody) =
      Except.error ClientError.validation := by
  have h := response_validation_by_operation (HttpResponse.mk 200 malformedBody)
    (by decide) (by decide)
  exact ⟨by decide, by decide, h.1⟩

/-- Claim C4 counterexample: QRCodesService.update hands a malformed 200
body straight back to the caller instead of raising a validation
failure, so not every operation validates its response. -/
theorem qrCodes_update_returns_unvalidated_body :
    parseSuccessField malformedBody = none ∧
    qrUpdateHandleResponse (HttpResponse.mk 200 malformedBody) =
      Except.ok malformedBody :=
  ⟨rfl, rfl⟩

/-- Claim C5 (amended): the transport primitive injects the bearer
Authorization header first and spreads caller headers over it, so
whenever the caller supplies no Authorization key the sent map carries
Bearer plus the configured credential; and when the caller supplies no
Content-Type key, the sent map carries Content-Type application/json
exactly when the body is a truthy non-FormData value. A caller-supplied
entry under either key overrides this (see the counterexample). -/
theorem header_policy_without_reserved_keys (c : WhatsAppConfig)
    (opts : FetchOptions)
    (hA : ∀ p ∈ opts.headers, p.1 ≠ "Authorization")
    (hC : ∀ p ∈ opts.headers, p.1 ≠ "Content-Type") :
    hget (requestHeaders c opts) "Authorization" =
      some ("Bearer " ++ c.accessToken) ∧
    (hget (requestHeaders c opts) "Content-Type" = some "application/json" ↔
      (bodyTruthy opts.body = true ∧ isFormBody opts.body = false)) := by
  have hbaseA : hget (mergedHeaders c opts) "Authorization" =
      some ("Bearer " ++ c.accessToken) := by
    rw [mergedHeaders, hget_foldl_of_notmem _ _ _ hA]
    rfl
  have hbaseC : hget (mergedHeaders c opts) "Content-Type" = none := by
    rw [mergedHeaders, hget_foldl_of_notmem _ _ _ hC]
    rfl
  by_cases hcond : (bodyTruthy opts.body && !(isFormBody opts.body)) = true
  · have hrw : requestHeaders c opts =
        hset (mergedHeaders c opts) "Content-Type" "application/json" := by
      rw [requestHeaders, if_pos hcond]
    constructor
    · rw [hrw, hget_hset_ne _ _ _ _ (by decide), hbaseA]
    · rw [hrw, hget_hset_self]
      have hparts : bodyTruthy opts.body = true ∧ isFormBody opts.body = false := by
        have h1 := hcond
        simp only [Bool.and_eq_true, Bool.not_eq_true'] at h1
        exact h1
      exact iff_of_true rfl hparts
  · have hrw : requestHeaders c opts = mergedHeaders c opts := by
      rw [requestHeaders, if_neg hcond]
    constructor
    · rw [hrw, hbaseA]
    · rw [hrw, hbaseC]
      refine iff_of_false (by simp) ?_
      intro hco
      exact hcond (by simp [hco.1, hco.2])

/-- Claim C5 witness: with a JSON string body and no caller headers, the
sent map carries the bearer Authorization entry and the JSON
Content-Type entry. -/
theorem header_policy_without_reserved_keys_witness :
    hget (requestHeaders cfgEx optsJsonEx) "Authorization" =
      some ("Bearer " ++ cfgEx.accessToken) ∧
    (hget (requestHeaders cfgEx optsJsonEx) "Content-Type" =
        some "application/json" ↔
      (bodyTruthy optsJsonEx.body = true ∧ isFormBody optsJsonEx.body = false)) :=
  header_policy_without_reserved_keys cfgEx optsJsonEx
    (by intro p hp; simp [optsJsonEx] at hp)
    (by intro p hp; simp [optsJsonEx] at hp)

/-- Claim C5 counterexample: a caller-supplied Authorization header is
spread after the injected bearer entry and overwrites it, so the sent
header map does not contain the configured bearer credential. -/
theorem caller_authorization_header_overrides_bearer :
    hget (requestHeaders cfgEx optsAuthEx) "Authorization" = some "tok2" ∧
    ("tok2" : String) ≠ "Bearer " ++ cfgEx.accessToken := by
  refine ⟨by decide, by decide⟩

/-- Claim C6 (amended): the commerce-settings operations of the business
service fail fast with a local precondition error and send nothing when
the configured WABA id is absent (or empty), but the templates service
operations interpolate the absent id into the path as the text
undefined and still issue the network call. -/
theorem wabaId_precondition_by_service (c : WhatsAppConfig)
    (t : CreateTemplateInput)
    (hw : jsStrTruthy c.wabaId = false) (ht : createTemplateValid t = true) :
    getCommerceSettingsOutbound c = Except.error (ClientError.precondition
      "wabaId is required to get commerce settings") ∧
    sendsRequest (templatesCreateOutbound c t) = true := by
  constructor
  · simp [getCommerceSettingsOutbound, hw]
  · simp [templatesCreateOutbound, ht, sendsRequest]

/-- Claim C6 witness: under the configuration with no WABA id, the
commerce-settings read fails fast and the template creation still sends
a request. -/
theorem wabaId_precondition_by_service_witness :
    jsStrTruthy cfgNoWaba.wabaId = false ∧
    createTemplateValid okTemplate = true ∧
    getCommerceSettingsOutbound cfgNoWaba = Except.error (ClientError.precondition
      "wabaId is required to get commerce settings") ∧
    sendsRequest (templatesCreateOutbound cfgNoWaba okTemplate) = true := by
  have h := wabaId_precondition_by_service cfgNoWaba okTemplate (by decide) (by decide)
  exact ⟨by decide, by decide, h.1, h.2⟩

/-- Claim C6 counterexample: with no WABA id configured, a valid
template creation does not fail fast — it issues an HTTP call whose
path embeds the literal text undefined where the id should be. -/
theorem templates_create_without_wabaId_sends_request :
    createTemplateValid okTemplate = true ∧
    outboundUrl (templatesCreateOutbound cfgNoWaba okTemplate) =
      some "https://graph.facebook.com/v21.0/undefined/message_templates" := by
  refine ⟨by decide, by decide⟩

/-- Claim C8: the quality-update change schema does not accept the
field value message_template_quality_update that names its event — it
accepts exactly the literal message_template_status_update instead
(while the components-update change schema does accept its own
discriminator), contradicting the one-to-one discriminator mapping and
the surrounding doc comments of the schema file itself. -/
theorem templateQualityUpdate_uses_status_update_literal :
    templateQualityUpdateChangeOk qualityChangeClaimed = false ∧
    templateQualityUpdateChangeOk qualityChangeActual = true ∧
    templateComponentsUpdateChangeOk componentsChangeEx = true := by
  refine ⟨by decide, by decide, by decide⟩

/-- Claim C9 (amended): only the webhook subscription check isSubscribed
downgrades a failure of its underlying call to false (via its try/catch
around getSubscriptions); the WABA checks isVerified and isApproved have
no catch and propagate the failure unchanged to the caller. -/
theorem error_swallowing_by_helper (e : ClientError) (s : SubscriptionsList) :
    isSubscribedOutcome (Except.error e) = false ∧
    isVerifiedOutcome (Except.error e) = Except.error e ∧
    isApprovedOutcome (Except.error e) = Except.error e ∧
    isSubscribedOutcome (Except.ok s) = decide (s.data.length > 0) :=
  ⟨rfl, rfl, rfl, rfl⟩

/-- Claim C9 counterexample: a failing WABA lookup makes isVerified
propagate that failure — its outcome is not the boolean false result the
claim promises for every convenience check. -/
theorem waba_isVerified_propagates_failure :
    isVerifiedOutcome (Except.error ClientError.validation) =
      Except.error ClientError.validation ∧
    isVerifiedOutcome (Except.error ClientError.validation) ≠ Except.ok false := by
  refine ⟨rfl, ?_⟩
  intro h
  exact Except.noConfusion h

/-- Claim C10: updateCallbackUrl is the same computation as subscribe
invoked with the options object carrying the callback URL as
override_callback_uri and the verify token: the same request goes out
(or the same validation failure is raised), and at every simulated
response the same result is returned and the same failures are raised. -/
theorem updateCallbackUrl_delegates_to_subscribe (c : WhatsAppConfig)
    (wabaId callbackUrl : String) (verifyToken : Option String)
    (resp : HttpResponse) (statusTextOf : Nat → String) :
    updateCallbackUrlOutbound c wabaId callbackUrl verifyToken =
      subscribeOutbound c wabaId
        (some { override_callback_uri := some callbackUrl,
                verify_token := verifyToken }) ∧
    updateCallbackUrlTotal c wabaId callbackUrl verifyToken resp statusTextOf =
      subscribeTotal c wabaId
        (some { override_callback_uri := some callbackUrl,
                verify_token := verifyToken }) resp statusTextOf :=
  ⟨rfl, rfl⟩
